import Mathlib

/-!
Verification of the SwiftRoute route-optimization core against its
natural-language specification.

The Python source is shallowly embedded below.  Conventions used
throughout the embedding:

* Python floats are modelled as exact rationals (ℚ); float rounding of
  the underlying binary representation is not modelled.  `round(x, n)`
  is Python's round-half-to-even on the decimal value.
* Python `Optional[float]` becomes `Option ℚ`; Python truthiness of an
  `Optional[float]` (`None` and `0.0` are falsy) is `optTruthy`.
* Mutation of a graph object is made explicit: for a Python function
  that may mutate its graph argument we give the pair
  (returned graph, state of the argument after the call), written as
  `..._call : ... → Graph × Graph`, with the first component the value
  returned and the second the argument's final state.
-/

namespace SwiftRoute

/-- Python truthiness of an `Optional[float]`: `None` and `0.0` are falsy,
every other float is truthy. -/
def optTruthy : Option ℚ → Bool
  | none => false
  | some q => q != 0

/-- Vehicle type enumeration, from gnn/models/vehicle.py `VehicleType`. -/
inductive VehicleType where
  | car | truck | van | motorcycle | bicycle | electric_car | electric_truck
deriving DecidableEq, Repr

/-- `VehicleType.value`: the string value of the enum member. -/
def VehicleType.value : VehicleType → String
  | .car => "car"
  | .truck => "truck"
  | .van => "van"
  | .motorcycle => "motorcycle"
  | .bicycle => "bicycle"
  | .electric_car => "electric_car"
  | .electric_truck => "electric_truck"

/-- Vehicle characteristics and constraints, from gnn/models/vehicle.py
`VehicleProfile`.  Only the fields read by the routing core (type,
physical dimensions, boolean preferences, hazmat flag) are embedded;
speed/fuel/emission rate fields are never read by the filtering,
prioritization or restriction code and are omitted. -/
structure VehicleProfile where
  vehicle_type : VehicleType := .car
  height_meters : Option ℚ := none
  width_meters : Option ℚ := none
  length_meters : Option ℚ := none
  weight_kg : Option ℚ := none
  avoid_highways : Bool := false
  avoid_tolls : Bool := false
  avoid_ferries : Bool := false
  avoid_unpaved : Bool := false
  hazmat : Bool := false
deriving DecidableEq, Repr

/-- Python `opt and opt > bound` for an `Optional[float]` attribute:
falsy (`None`/`0.0`) short-circuits to false, otherwise the comparison. -/
def optGt (o : Option ℚ) (bound : ℚ) : Bool :=
  match o with
  | none => false
  | some x => if x = 0 then false else decide (x > bound)

/-- `VehicleProfile.requires_truck_route`, from gnn/models/vehicle.py:
truck-like type OR weight > 7500 OR height > 3.5 OR length > 10,
with Python truthiness on the optional dimensions. -/
def VehicleProfile.requires_truck_route (v : VehicleProfile) : Bool :=
  (v.vehicle_type = .truck || v.vehicle_type = .electric_truck)
    || optGt v.weight_kg 7500
    || optGt v.height_meters (7/2)
    || optGt v.length_meters 10

/-- Road segment restrictions, from gnn/models/vehicle.py `RoadRestrictions`. -/
structure RoadRestrictions where
  max_height_meters : Option ℚ := none
  max_width_meters : Option ℚ := none
  max_length_meters : Option ℚ := none
  max_weight_kg : Option ℚ := none
  no_trucks : Bool := false
  no_hazmat : Bool := false
  toll_road : Bool := false
  unpaved : Bool := false
deriving DecidableEq, Repr

/-- One numeric limit check of `allows_vehicle`: Python
`if limit and attr: if attr > limit: return False`.  Both the limit and
the vehicle attribute must be truthy (declared and nonzero) for the
comparison to run. -/
def limitExceeded (limit attr : Option ℚ) : Bool :=
  (optTruthy limit && optTruthy attr)
    && decide (attr.getD 0 > limit.getD 0)

/-- `RoadRestrictions.allows_vehicle`, from gnn/models/vehicle.py: the
chain of early-return checks, in source order. -/
def RoadRestrictions.allows_vehicle (r : RoadRestrictions) (v : VehicleProfile) : Bool :=
  if r.no_trucks && v.requires_truck_route then false
  else if r.no_hazmat && v.hazmat then false
  else if limitExceeded r.max_height_meters v.height_meters then false
  else if limitExceeded r.max_width_meters v.width_meters then false
  else if limitExceeded r.max_length_meters v.length_meters then false
  else if limitExceeded r.max_weight_kg v.weight_kg then false
  else if r.toll_road && v.avoid_tolls then false
  else if r.unpaved && v.avoid_unpaved then false
  else true

/-- The claim's reading of one numeric limit: a limit with a *declared*
value (not `None`) constrains, and a declared vehicle attribute violates
it when it exceeds the limit.  (This differs from the code, which also
treats a declared `0.0` as "no value" by Python truthiness.) -/
def declaredExceeded (limit attr : Option ℚ) : Bool :=
  match limit, attr with
  | some l, some a => decide (a > l)
  | _, _ => false

/-- The claim's specification of `allows_vehicle`, phrased as "false
exactly when some declared limit is violated": limits with no declared
value impose no constraint, undeclared vehicle attributes never violate. -/
def allowsSpecDeclared (r : RoadRestrictions) (v : VehicleProfile) : Bool :=
  !((r.no_trucks && v.requires_truck_route)
    || (r.no_hazmat && v.hazmat)
    || declaredExceeded r.max_height_meters v.height_meters
    || declaredExceeded r.max_width_meters v.width_meters
    || declaredExceeded r.max_length_meters v.length_meters
    || declaredExceeded r.max_weight_kg v.weight_kg
    || (r.toll_road && v.avoid_tolls)
    || (r.unpaved && v.avoid_unpaved))

/-- The amended specification: as the claim, but a limit or vehicle
attribute whose declared value is `0.0` is treated as undeclared
(Python truthiness), matching the source. -/
def allowsSpecTruthy (r : RoadRestrictions) (v : VehicleProfile) : Bool :=
  !((r.no_trucks && v.requires_truck_route)
    || (r.no_hazmat && v.hazmat)
    || limitExceeded r.max_height_meters v.height_meters
    || limitExceeded r.max_width_meters v.width_meters
    || limitExceeded r.max_length_meters v.length_meters
    || limitExceeded r.max_weight_kg v.weight_kg
    || (r.toll_road && v.avoid_tolls)
    || (r.unpaved && v.avoid_unpaved))

/-- Raw OSM-style restriction tags of an edge, from the keys read by
`VehicleNetworkFilter._parse_restrictions` (gnn/network/filters.py).
String-to-float parsing is abstracted: a numerically parsable
`maxheight`/`maxwidth`/`maxlength`/`maxweight` tag is `some q`
(`maxweight` in tonnes), an absent or unparsable tag is `none` (the
source leaves the restriction field `None` on a parse failure).
The string-valued tags are abstracted to the booleans the source
tests them for. -/
structure EdgeTags where
  maxheight : Option ℚ := none
  maxwidth : Option ℚ := none
  maxlength : Option ℚ := none
  maxweight : Option ℚ := none
  hgv_no : Bool := false
  goods_no : Bool := false
  hazmat_no : Bool := false
  toll_yes : Bool := false
  surface_unpaved : Bool := false
deriving DecidableEq, Repr

/-- Attribute dictionary of a directed edge.  Each `Option` field models
presence of the corresponding key in the networkx edge-data dict; the
consumers apply their own `.get` defaults, embedded at each use site. -/
structure EdgeData where
  length : Option ℚ := none
  speed_limit : Option ℚ := none
  road_type : Option String := none
  tags : EdgeTags := {}
  toll : Bool := false
  weight : Option ℚ := none
deriving DecidableEq, Repr

/-- Node attributes: latitude and longitude. -/
structure NodeData where
  lat : ℚ := 0
  lng : ℚ := 0
deriving DecidableEq, Repr

/-- A directed road network (networkx `DiGraph`): nodes with attributes
and directed edges `(source, target, data)`.  Node identifiers are
abstracted to naturals.  A `DiGraph` holds at most one edge per ordered
pair; all concrete graphs below respect this. -/
structure Graph where
  nodes : List (ℕ × NodeData) := []
  edges : List (ℕ × ℕ × EdgeData) := []
deriving DecidableEq, Repr

/-- `VehicleNetworkFilter._parse_restrictions` (gnn/network/filters.py):
derive `RoadRestrictions` from raw tags and edge data.  `maxweight` is
converted from tonnes to kg; `no_trucks` from `hgv=no` or `goods=no`;
`toll_road` from `toll=yes` or the edge's own `toll` attribute. -/
def parse_restrictions (tags : EdgeTags) (toll_attr : Bool) : RoadRestrictions :=
  { max_height_meters := tags.maxheight
    max_width_meters := tags.maxwidth
    max_length_meters := tags.maxlength
    max_weight_kg := tags.maxweight.map (· * 1000)
    no_trucks := tags.hgv_no || tags.goods_no
    no_hazmat := tags.hazmat_no
    toll_road := tags.toll_yes || toll_attr
    unpaved := tags.surface_unpaved }

/-- `ROAD_TYPE_ACCESS` (gnn/network/filters.py): allowed road types per
vehicle type.  Every enum member is a key of the source dict, so the
`.get` fallback `{primary, secondary, tertiary, residential}` is
unreachable for well-typed vehicles and is not embedded. -/
def road_type_access : VehicleType → List String
  | .car => ["motorway", "trunk", "primary", "secondary", "tertiary", "residential", "service"]
  | .truck => ["motorway", "trunk", "primary", "secondary", "tertiary"]
  | .van => ["motorway", "trunk", "primary", "secondary", "tertiary", "residential"]
  | .motorcycle => ["motorway", "trunk", "primary", "secondary", "tertiary", "residential", "service"]
  | .bicycle => ["cycleway", "path", "residential", "service", "tertiary"]
  | .electric_car => ["motorway", "trunk", "primary", "secondary", "tertiary", "residential", "service"]
  | .electric_truck => ["motorway", "trunk", "primary", "secondary", "tertiary"]

/-- Python `str.lower()`: lower-case each character (identical to
`String.toLower`, spelt via `List.map` so that it evaluates in the
kernel). -/
def pyLower (s : String) : String := ⟨s.data.map Char.toLower⟩

/-- `data.get('road_type', 'unknown').lower()` for an edge. -/
def roadTypeLower (d : EdgeData) : String :=
  pyLower (d.road_type.getD "unknown")

/-- The `should_remove` test of `filter_graph_by_vehicle` for one edge:
road type not allowed, OR highway avoidance, OR restrictions disallow. -/
def shouldRemoveEdge (v : VehicleProfile) (d : EdgeData) : Bool :=
  let road_type := roadTypeLower d
  let allowed := road_type_access v.vehicle_type
  (!(allowed.contains road_type))
    || (v.avoid_highways && (road_type = "motorway" || road_type = "trunk"))
    || (!(parse_restrictions d.tags d.toll).allows_vehicle v)

/-- A node is isolated (networkx `isolates`) when it has no incident
edge, incoming or outgoing. -/
def isIsolated (edges : List (ℕ × ℕ × EdgeData)) (n : ℕ) : Bool :=
  edges.all (fun e => e.1 != n && e.2.1 != n)

/-- `VehicleNetworkFilter.filter_graph_by_vehicle` (gnn/network/filters.py):
copy the graph, drop edges failing `should_remove`, then drop isolated
nodes.  Works on a copy, so the argument is unchanged; `_call` returns
(result, argument after call). -/
def filter_graph_by_vehicle (g : Graph) (v : VehicleProfile) : Graph :=
  let kept := g.edges.filter (fun e => !shouldRemoveEdge v e.2.2)
  { nodes := g.nodes.filter (fun p => !isIsolated kept p.1)
    edges := kept }

/-- Heap-explicit form of `filter_graph_by_vehicle`: the source copies
the graph before mutating, so the argument object is left unchanged. -/
def filter_graph_by_vehicle_call (g : Graph) (v : VehicleProfile) : Graph × Graph :=
  (filter_graph_by_vehicle g v, g)

/-- The weight update applied to one edge by `prioritize_truck_routes`:
multiply `data.get('weight', 1.0)` by 0.9 on motorway/trunk/primary
(the truck-friendly set), by 1.3 otherwise. -/
def prioritizeEdge (d : EdgeData) : EdgeData :=
  if roadTypeLower d = "motorway" || roadTypeLower d = "trunk"
      || roadTypeLower d = "primary" then
    { d with weight := some (d.weight.getD 1 * (9/10)) }
  else
    { d with weight := some (d.weight.getD 1 * (13/10)) }

/-- `VehicleNetworkFilter.prioritize_truck_routes` (gnn/network/filters.py):
if the vehicle does not require truck routing the graph is returned
untouched; otherwise every edge weight is scaled in place.  The source
writes `data['weight']` on the edges of its argument and returns the
same graph object, so the returned graph and the argument's final state
coincide. -/
def prioritize_truck_routes (g : Graph) (v : VehicleProfile) : Graph :=
  if !v.requires_truck_route then g
  else { g with edges := g.edges.map (fun e => (e.1, e.2.1, prioritizeEdge e.2.2)) }

/-- Heap-explicit form of `prioritize_truck_routes`: in-place mutation,
the argument ends in the returned state. -/
def prioritize_truck_routes_call (g : Graph) (v : VehicleProfile) : Graph × Graph :=
  let r := prioritize_truck_routes g v
  (r, r)

/-- Road-type penalty table of `GraphUtils.calculate_edge_weight`
(gnn/network/graph.py), `.get(road_type.lower(), 1.3)`. -/
def road_type_penalty (road_type : String) : ℚ :=
  if pyLower road_type = "motorway" then 1
  else if pyLower road_type = "trunk" then 11/10
  else if pyLower road_type = "primary" then 12/10
  else if pyLower road_type = "secondary" then 13/10
  else if pyLower road_type = "tertiary" then 14/10
  else if pyLower road_type = "residential" then 15/10
  else if pyLower road_type = "service" then 16/10
  else 13/10

/-- `GraphUtils.calculate_edge_weight` (gnn/network/graph.py): blend of
distance (km), time (minutes), fuel cost (0.15 USD/km) and emissions
(0.12 kg/km) components, scaled by the road-type penalty. -/
def calculate_edge_weight (length_meters : ℚ) (speed_limit_kmh : ℚ) (road_type : String)
    (distance_weight time_weight cost_weight emissions_weight : ℚ) : ℚ :=
  let distance_km := length_meters / 1000
  let distance_cost := distance_km
  let time_hours := distance_km / speed_limit_kmh
  let time_cost := time_hours * 60
  let fuel_cost := distance_km * (15/100)
  let emissions_kg := distance_km * (12/100)
  (distance_cost * distance_weight + time_cost * time_weight
    + fuel_cost * cost_weight + emissions_kg * emissions_weight)
    * road_type_penalty road_type

/-- The weight written to one edge by `add_weights_to_graph`, with the
source's `.get` defaults: length 1000, speed limit 50, road type
"unknown". -/
def addWeightEdge (dw tw cw ew : ℚ) (d : EdgeData) : EdgeData :=
  { d with weight := some (calculate_edge_weight (d.length.getD 1000)
      (d.speed_limit.getD 50) (d.road_type.getD "unknown") dw tw cw ew) }

/-- `GraphUtils.add_weights_to_graph` (gnn/network/graph.py): write the
computed weight onto every edge.  The source assigns
`graph[u][v]['weight']` on its argument and returns the same object. -/
def add_weights_to_graph (g : Graph) (dw tw cw ew : ℚ) : Graph :=
  { g with edges := g.edges.map (fun e => (e.1, e.2.1, addWeightEdge dw tw cw ew e.2.2)) }

/-- Heap-explicit form of `add_weights_to_graph`: in-place mutation,
the argument ends in the returned state. -/
def add_weights_to_graph_call (g : Graph) (dw tw cw ew : ℚ) : Graph × Graph :=
  let r := add_weights_to_graph g dw tw cw ew
  (r, r)

/-- Criterion-to-weights table of
`RouteOptimizationEngine._add_optimization_weights`
(gnn/optimizer/engine.py), with fallback to `balanced`. -/
def criterion_weights (criteria : String) : ℚ × ℚ × ℚ × ℚ :=
  if criteria = "distance" then (1, 0, 0, 0)
  else if criteria = "time" then (2/10, 8/10, 0, 0)
  else if criteria = "cost" then (2/10, 2/10, 6/10, 0)
  else if criteria = "emissions" then (2/10, 2/10, 0, 6/10)
  else if criteria = "balanced" then (3/10, 4/10, 2/10, 1/10)
  else (3/10, 4/10, 2/10, 1/10)

/-- The weight-preparation pipeline of `RouteOptimizationEngine.optimize`
(gnn/optimizer/engine.py lines 79-99), in source order: filter for the
vehicle, then (for heavy vehicles) prioritize truck routes, then assign
optimization weights. -/
def engine_prepare_graph (g : Graph) (v : VehicleProfile) (criteria : String) : Graph :=
  let g1 := filter_graph_by_vehicle g v
  let g2 := if v.requires_truck_route then prioritize_truck_routes g1 v else g1
  let w := criterion_weights criteria
  add_weights_to_graph g2 w.1 w.2.1 w.2.2.1 w.2.2.2

/-- Python `int(x)` on a float: truncation toward zero. -/
def pyInt (q : ℚ) : ℤ :=
  if 0 ≤ q then ⌊q⌋ else ⌈q⌉

/-- Round-half-to-even to an integer, the semantics of Python `round`
on the decimal value. -/
def roundHalfEven (x : ℚ) : ℤ :=
  let f := ⌊x⌋
  let r := x - f
  if r < 1/2 then f
  else if r > 1/2 then f + 1
  else if f % 2 = 0 then f else f + 1

/-- Python `round(x, 2)`. -/
def round2 (x : ℚ) : ℚ := (roundHalfEven (x * 100) : ℚ) / 100

/-- Python `round(x, 1)`. -/
def round1 (x : ℚ) : ℚ := (roundHalfEven (x * 10) : ℚ) / 10

/-- Result of route optimization, from gnn/optimizer/astar.py
`RouteResult`. -/
structure RouteResult where
  path : List ℕ
  coordinates : List (ℚ × ℚ)
  distance_km : ℚ
  time_minutes : ℚ
  cost_usd : ℚ
  emissions_kg : ℚ
  confidence_score : ℚ
  algorithm_used : String
  processing_time_ms : ℤ
deriving DecidableEq, Repr

/-- `graph.get_edge_data(u, v, {})`: attribute dict of the edge from
`u` to `v`, if present. -/
def get_edge_data (g : Graph) (u v : ℕ) : Option EdgeData :=
  (g.edges.find? (fun e => e.1 = u && e.2.1 = v)).map (fun e => e.2.2)

/-- `AStarOptimizer._calculate_metrics` (gnn/optimizer/astar.py): sum
per consecutive pair the edge's length (default 0) and speed limit
(default 50), accumulating distance (km), time (minutes), cost
(0.15 USD/km) and emissions (0.12 kg/km); round the totals. -/
def calculate_metrics (g : Graph) (path : List ℕ) : ℚ × ℚ × ℚ × ℚ :=
  let segs := path.zip path.tail
  let totals := segs.foldl (fun acc uv =>
    let d := (get_edge_data g uv.1 uv.2).getD {}
    let length_km := d.length.getD 0 / 1000
    let speed_kmh := d.speed_limit.getD 50
    (acc.1 + length_km, acc.2.1 + (length_km / speed_kmh) * 60,
     acc.2.2.1 + length_km * (15/100), acc.2.2.2 + length_km * (12/100)))
    ((0 : ℚ), (0 : ℚ), (0 : ℚ), (0 : ℚ))
  (round2 totals.1, round1 totals.2.1, round2 totals.2.2.1, round2 totals.2.2.2)

/-- All simple paths from `cur` to `dest` avoiding `visited`, by
fuel-bounded depth-first enumeration over the edge list.  With fuel at
least the number of nodes this enumerates every simple path. -/
def simplePathsAux (edges : List (ℕ × ℕ × EdgeData)) (dest : ℕ) :
    ℕ → ℕ → List ℕ → List (List ℕ)
  | fuel, cur, visited =>
    if cur = dest then [[cur]]
    else
      match fuel with
      | 0 => []
      | Nat.succ f =>
        (edges.filterMap (fun e =>
          if e.1 = cur && !(visited.contains e.2.1) then some e.2.1 else none)).flatMap
          (fun nxt =>
            (simplePathsAux edges dest f nxt (nxt :: visited)).map (fun p => cur :: p))

/-- Total weight of a path under an edge-cost reading `wt` (missing
edges cost 0; the search only produces paths whose edges exist). -/
def pathCost (g : Graph) (wt : EdgeData → ℚ) (p : List ℕ) : ℚ :=
  (p.zip p.tail).foldl (fun acc uv =>
    acc + ((get_edge_data g uv.1 uv.2).map wt).getD 0) 0

/-- First strict minimum of a list of candidate paths by cost. -/
def selectMinPath (g : Graph) (wt : EdgeData → ℚ) : List (List ℕ) → Option (List ℕ)
  | [] => none
  | p :: ps =>
    match selectMinPath g wt ps with
    | none => some p
    | some q => if pathCost g wt q < pathCost g wt p then some q else some p

/-- Model of the library shortest-path call (`nx.astar_path` with the
haversine heuristic, and `nx.bidirectional_dijkstra`): a minimum-weight
path from origin to destination, or `none` when no path exists
(`NetworkXNoPath`).  In every concrete instance evaluated below all
node coordinates are equal, so the haversine heuristic is identically
zero, A* degenerates to Dijkstra, and the minimum-weight path is
unique, making this model exact. -/
def shortest_path (g : Graph) (wt : EdgeData → ℚ) (origin dest : ℕ) : Option (List ℕ) :=
  selectMinPath g wt (simplePathsAux g.edges dest g.nodes.length origin [origin])

/-- The edge-cost reading used by a networkx search on attribute name
`weight`: the attribute's value, default 1 when absent. -/
def wtWeight (d : EdgeData) : ℚ := d.weight.getD 1

/-- The edge-cost reading for attribute name `length` (baseline search). -/
def wtLength (d : EdgeData) : ℚ := d.length.getD 1

/-- `AStarOptimizer.optimize_route` (gnn/optimizer/astar.py).  The
source never reads `self.max_execution_time`; wall-clock time is read
only to fill `processing_time_ms`, so elapsed time is passed in here as
the explicit parameter `elapsed_ms` and the result is defined for every
elapsed time.  `None` is returned exactly on `NetworkXNoPath` (or an
internal error, impossible in this model). -/
def optimize_route (g : Graph) (origin dest : ℕ) (wt : EdgeData → ℚ)
    (elapsed_ms : ℤ) : Option RouteResult :=
  match shortest_path g wt origin dest with
  | none => none
  | some p =>
    let m := calculate_metrics g p
    some { path := p
           coordinates := p.map (fun n =>
             let nd := (g.nodes.find? (fun q => q.1 = n)).map Prod.snd |>.getD {}
             (nd.lat, nd.lng))
           distance_km := m.1
           time_minutes := m.2.1
           cost_usd := m.2.2.1
           emissions_kg := m.2.2.2
           confidence_score := 95/100
           algorithm_used := "astar"
           processing_time_ms := elapsed_ms }

/-- `graph_copy.remove_edge(u, v)` guarded by `has_edge`: drop the edge
from `u` to `v` if present. -/
def remove_edge (g : Graph) (u v : ℕ) : Graph :=
  { g with edges := g.edges.filter (fun e => !(e.1 = u && e.2.1 = v)) }

/-- The alternatives loop of `AStarOptimizer.find_alternative_routes`:
for iteration `i` (up to `n` more), break when `i ≥ len(primary)-1`,
otherwise remove edge `(primary[i], primary[i+1])` from the working
copy and re-solve; keep the result when its path differs from the
primary path. -/
def find_alt_loop (origin dest : ℕ) (pp : List ℕ) :
    ℕ → ℕ → Graph → List RouteResult
  | _, 0, _ => []
  | i, Nat.succ n, gc =>
    if pp.length - 1 ≤ i then []
    else
      let u := pp.getD i 0
      let v := pp.getD (i + 1) 0
      let gc2 := remove_edge gc u v
      let rest := find_alt_loop origin dest pp (i + 1) n gc2
      match optimize_route gc2 origin dest wtWeight 0 with
      | some alt => if alt.path ≠ pp then alt :: rest else rest
      | none => rest

/-- `AStarOptimizer.find_alternative_routes` (gnn/optimizer/astar.py):
primary route first, then alternatives found by cumulatively removing
early primary-route edges from a copy of the graph.  Processing times
are irrelevant to the claims and passed as 0. -/
def find_alternative_routes (g : Graph) (origin dest : ℕ)
    (num_alternatives : ℕ) : List RouteResult :=
  match optimize_route g origin dest wtWeight 0 with
  | none => []
  | some primary =>
    primary ::
      (if 0 < num_alternatives then
        find_alt_loop origin dest primary.path 0 num_alternatives g
      else [])

/-- The four metric fields of a route result read by the improvement
calculations (both `RouteResult` dataclasses carry them identically). -/
structure RouteMetrics where
  distance_km : ℚ
  time_minutes : ℚ
  cost_usd : ℚ
  emissions_kg : ℚ
deriving DecidableEq, Repr

/-- The improvements map of an optimization response. -/
structure Improvements where
  distance_saved_km : ℚ
  time_saved_minutes : ℚ
  cost_saved_usd : ℚ
  emissions_saved_kg : ℚ
deriving DecidableEq, Repr

/-- `RouteOptimizationEngine._calculate_improvements`
(gnn/optimizer/engine.py): zeros without a baseline, otherwise
baseline minus optimized, rounded (2 decimals, 1 for time) with no
clamping. -/
def engine_calculate_improvements (baseline : Option RouteMetrics)
    (optimized : RouteMetrics) : Improvements :=
  match baseline with
  | none => ⟨0, 0, 0, 0⟩
  | some b =>
    ⟨round2 (b.distance_km - optimized.distance_km),
     round1 (b.time_minutes - optimized.time_minutes),
     round2 (b.cost_usd - optimized.cost_usd),
     round2 (b.emissions_kg - optimized.emissions_kg)⟩

/-- The improvements computed inline by `EnhancedOptimizer.optimize`
(lib/gnn/optimizer/enhanced_optimizer.py lines 107-113):
`max(0, baseline - optimized)` on each dimension. -/
def enhanced_improvements (baseline optimized : RouteMetrics) : Improvements :=
  ⟨max 0 (baseline.distance_km - optimized.distance_km),
   max 0 (baseline.time_minutes - optimized.time_minutes),
   max 0 (baseline.cost_usd - optimized.cost_usd),
   max 0 (baseline.emissions_kg - optimized.emissions_kg)⟩

/-- Rate limit check result, from lib/rate_limiter.py `RateLimitResult`
(the fields the sliding-window claim concerns). -/
structure RateLimitResult where
  allowed : Bool
  limit : ℕ
  remaining : ℤ
  reset_time : ℤ
  retry_after : Option ℤ
deriving DecidableEq, Repr

/-- Minimum of a list of timestamps (SQL `MIN`), `none` on an empty set. -/
def listMin : List ℚ → Option ℚ
  | [] => none
  | t :: ts =>
    match listMin ts with
    | none => some t
    | some m => some (min t m)

/-- Python float `x % 60` for the nonnegative modulus used in
`reset_time`. -/
def qMod60 (x : ℚ) : ℚ := x - 60 * ⌊x / 60⌋

/-- `RateLimiter._check_sliding_window` (lib/rate_limiter.py).  The
usage store is modelled as the list of request timestamps recorded for
the key and endpoint; `now` is `time.time()`.  The window count is the
number of timestamps strictly after `now - 60`; `allowed = count <
limit`; on denial `retry_after = int(oldest + 60 - now)` for the oldest
timestamp in the window, `None` when the window is empty or the oldest
timestamp is falsy (0.0). -/
def check_sliding_window (records : List ℚ) (now : ℚ) (limit : ℕ) : RateLimitResult :=
  let window_start := now - 60
  let window := records.filter (fun t => window_start < t)
  let current_count := window.length
  let allowed := decide (current_count < limit)
  let retry_after :=
    if allowed then none
    else
      match listMin window with
      | none => none
      | some oldest => if oldest = 0 then none else some (pyInt (oldest + 60 - now))
  { allowed := allowed
    limit := limit
    remaining := max 0 ((limit : ℤ) - current_count)
    reset_time := pyInt (now + 60 - qMod60 now)
    retry_after := retry_after }

/-- One entry of `GraphCache._cache`: key, value, insertion timestamp,
estimated size in bytes, in `OrderedDict` order (oldest first). -/
structure GraphCacheState (α : Type) where
  entries : List (String × α × ℚ × ℕ) := []
  current_size_bytes : ℤ := 0

/-- `GraphCache._is_expired` (lib/gnn/utils/cache.py): strictly more
than `ttl_seconds` old. -/
def graph_is_expired (ttl_seconds : ℚ) (timestamp now : ℚ) : Bool :=
  decide (now - timestamp > ttl_seconds)

/-- `GraphCache.get` (lib/gnn/utils/cache.py), with `time.time()` passed
explicitly as `now`: miss on absent key; on an expired entry pop it,
subtract its size and miss; otherwise move the entry to the end and
return its value. -/
def graphCacheGet {α : Type} (ttl_seconds : ℚ) (s : GraphCacheState α)
    (key : String) (now : ℚ) : Option α × GraphCacheState α :=
  match s.entries.find? (fun e => e.1 = key) with
  | none => (none, s)
  | some e =>
    if graph_is_expired ttl_seconds e.2.2.1 now then
      (none, { entries := s.entries.filter (fun q => q.1 ≠ key)
               current_size_bytes := s.current_size_bytes - e.2.2.2 })
    else
      (some e.2.1, { s with
        entries := s.entries.filter (fun q => q.1 ≠ key) ++ [e] })

/-- `GraphCache._evict_if_needed`: pop oldest entries while the new item
would not fit. -/
def graphEvictIfNeeded {α : Type} (max_size_bytes : ℤ) (new_item_size : ℕ) :
    ℕ → GraphCacheState α → GraphCacheState α
  | 0, s => s
  | Nat.succ fuel, s =>
    if decide (max_size_bytes < s.current_size_bytes + new_item_size) && !s.entries.isEmpty then
      match s.entries with
      | [] => s
      | e :: rest =>
        graphEvictIfNeeded max_size_bytes new_item_size fuel
          { entries := rest, current_size_bytes := s.current_size_bytes - e.2.2.2 }
    else s

/-- `GraphCache.set` (lib/gnn/utils/cache.py), with the size estimate
(`sys.getsizeof(pickle.dumps(value))`) and `time.time()` passed
explicitly: drop any previous entry for the key, evict until the new
item fits, append the new entry. -/
def graphCacheSet {α : Type} (max_size_bytes : ℤ) (s : GraphCacheState α)
    (key : String) (value : α) (size : ℕ) (now : ℚ) : GraphCacheState α :=
  let s1 :=
    match s.entries.find? (fun e => e.1 = key) with
    | none => s
    | some e =>
      { entries := s.entries.filter (fun q => q.1 ≠ key)
        current_size_bytes := s.current_size_bytes - e.2.2.2 }
  let s2 := graphEvictIfNeeded max_size_bytes size s1.entries.length s1
  { entries := s2.entries ++ [(key, value, now, size)]
    current_size_bytes := s2.current_size_bytes + size }

/-- Key of `RouteCache._generate_route_key`: the md5 of the formatted
`(origin, destination, vehicle_type, optimization)` tuple, modelled as
the tuple itself (md5 is treated as injective). -/
abbrev RouteKey := (ℚ × ℚ) × (ℚ × ℚ) × String × String

/-- One entry of `RouteCache._cache`: key, route value, insertion
timestamp, in `OrderedDict` order (oldest first). -/
structure RouteCacheState (α : Type) where
  entries : List (RouteKey × α × ℚ) := []

/-- `RouteCache.get_route` (lib/gnn/utils/cache.py), with `time.time()`
passed explicitly as `now`: miss on absent key; on an entry strictly
older than the TTL pop it and miss; otherwise move it to the end and
return the cached route. -/
def routeCacheGet {α : Type} (ttl_seconds : ℚ) (s : RouteCacheState α)
    (key : RouteKey) (now : ℚ) : Option α × RouteCacheState α :=
  match s.entries.find? (fun e => e.1 = key) with
  | none => (none, s)
  | some e =>
    if now - e.2.2 > ttl_seconds then
      (none, { entries := s.entries.filter (fun q => q.1 ≠ key) })
    else
      (some e.2.1, { entries := s.entries.filter (fun q => q.1 ≠ key) ++ [e] })

/-- `RouteCache.set_route` (lib/gnn/utils/cache.py): when at capacity
and the key is new, pop the oldest entry; then `OrderedDict` assignment
writes the entry, keeping the position of an existing key and appending
a new one. -/
def routeCacheSet {α : Type} (max_items : ℕ) (s : RouteCacheState α)
    (key : RouteKey) (route : α) (now : ℚ) : RouteCacheState α :=
  let present := (s.entries.find? (fun e => e.1 = key)).isSome
  let s1 : RouteCacheState α :=
    if max_items ≤ s.entries.length ∧ ¬present then
      { entries := s.entries.tail }
    else s
  if present then
    { entries := s1.entries.map (fun e => if e.1 = key then (key, route, now) else e) }
  else
    { entries := s1.entries ++ [(key, route, now)] }

/-- Forget the `weight` attribute of an edge dict (used to state that
an operation changes nothing but weights). -/
def eraseWeight (d : EdgeData) : EdgeData := { d with weight := none }

/-! ### Concrete instances used in the verification -/

/-- An edge dict holding only a `weight` attribute. -/
def edgeW (w : ℚ) : EdgeData := { weight := some w }

/-- Four-node network with a cheap two-hop route 0→1→2 and an expensive
detour 0→3→2; all node coordinates are (0,0) so the haversine heuristic
is identically zero. -/
def gAlt : Graph :=
  { nodes := [(0, {}), (1, {}), (2, {}), (3, {})]
    edges := [(0, 1, edgeW 1), (1, 2, edgeW 1), (0, 3, edgeW 5), (3, 2, edgeW 5)] }

/-- A fully attributed primary-road edge dict. -/
def dLine : EdgeData :=
  { length := some 1000, speed_limit := some 50, road_type := some "primary",
    weight := some 1 }

/-- Three-node line network 0→1→2 with full edge attributes. -/
def gLine : Graph :=
  { nodes := [(0, {}), (1, {}), (2, {})]
    edges := [(0, 1, dLine), (1, 2, dLine)] }

/-- The primary route the optimizer computes on `gAlt` (path 0→1→2; all
metric totals are 0 because the edges of `gAlt` carry no length). -/
def pAlt : RouteResult :=
  { path := [0, 1, 2], coordinates := [(0, 0), (0, 0), (0, 0)]
    distance_km := 0, time_minutes := 0, cost_usd := 0, emissions_kg := 0
    confidence_score := 95/100, algorithm_used := "astar", processing_time_ms := 0 }

/-- The alternative route found twice on `gAlt` (path 0→3→2). -/
def aAlt : RouteResult :=
  { path := [0, 3, 2], coordinates := [(0, 0), (0, 0), (0, 0)]
    distance_km := 0, time_minutes := 0, cost_usd := 0, emissions_kg := 0
    confidence_score := 95/100, algorithm_used := "astar", processing_time_ms := 0 }

/-- Two-node network with a single motorway edge and no weight yet. -/
def gMotorway : Graph :=
  { nodes := [(0, {}), (1, {})]
    edges := [(0, 1, { length := some 1000, speed_limit := some 50,
                       road_type := some "motorway" })] }

/-- Two-node network with a single weighted edge of unspecified road type. -/
def gOneEdge : Graph :=
  { nodes := [(0, {}), (1, {})]
    edges := [(0, 1, edgeW 1)] }

/-- A vehicle of type truck (all optional fields unset). -/
def truckV : VehicleProfile := { vehicle_type := .truck }

/-- A default car profile (all optional fields unset). -/
def carV : VehicleProfile := {}

/-- Ten request timestamps all inside the window of `now = 100`: the
oldest, 40.5, expires half a second after `now`. -/
def recsTen : List ℚ := [81/2, 50, 51, 52, 53, 54, 55, 56, 57, 58]

/-! ### Theorems -/

/-- `pyLower` fixes already-lower-case strings (evaluation facts used to
discharge string conditions in concrete instances). -/
theorem pyLower_motorway : pyLower "motorway" = "motorway" := by decide

/-- See `pyLower_motorway`. -/
theorem pyLower_primary : pyLower "primary" = "primary" := by decide

/-- See `pyLower_motorway`. -/
theorem pyLower_service : pyLower "service" = "service" := by decide

/-- See `pyLower_motorway`. -/
theorem pyLower_unknown : pyLower "unknown" = "unknown" := by decide

/-- See `pyLower_motorway`. -/
theorem pyLower_gravelpath : pyLower "gravelpath" = "gravelpath" := by decide

/-- Evaluation of the road-type penalty on the default key. -/
theorem road_type_penalty_unknown : road_type_penalty "unknown" = 13/10 := by
  rw [road_type_penalty, pyLower_unknown]
  simp

/-- Evaluation of the road-type penalty on "motorway". -/
theorem road_type_penalty_motorway : road_type_penalty "motorway" = 1 := by
  rw [road_type_penalty, pyLower_motorway, if_pos rfl]

/-- Evaluation of the road-type penalty on "service". -/
theorem road_type_penalty_service : road_type_penalty "service" = 16/10 := by
  rw [road_type_penalty, pyLower_service]
  simp

/-- An eight-condition early-return chain is the negated disjunction of
its conditions. -/
theorem if_chain_eq_not_or (c1 c2 c3 c4 c5 c6 c7 c8 : Bool) :
    (if c1 then false else if c2 then false else if c3 then false
     else if c4 then false else if c5 then false else if c6 then false
     else if c7 then false else if c8 then false else true)
    = !(c1 || c2 || c3 || c4 || c5 || c6 || c7 || c8) := by
  cases c1 <;> cases c2 <;> cases c3 <;> cases c4 <;> cases c5 <;> cases c6 <;>
    cases c7 <;> cases c8 <;> rfl

/-- C6 (counterexample): the claim reads "returns false exactly when
some declared limit is violated".  With a declared height limit of 0.0
and a vehicle height of 2.0 the limit is declared and violated, so the
claim requires `false`, but the source's truthiness test skips a 0.0
limit and `allows_vehicle` returns `true`. -/
theorem c6_zero_limit_counterexample :
    RoadRestrictions.allows_vehicle { max_height_meters := some 0 }
      { vehicle_type := .car, height_meters := some 2 } = true ∧
    allowsSpecDeclared { max_height_meters := some 0 }
      { vehicle_type := .car, height_meters := some 2 } = false := by
  constructor
  · norm_num [RoadRestrictions.allows_vehicle, limitExceeded, optTruthy, optGt,
      VehicleProfile.requires_truck_route]
  · norm_num [allowsSpecDeclared, declaredExceeded, limitExceeded, optTruthy, optGt,
      VehicleProfile.requires_truck_route]

/-- C6 (amended): `allows_vehicle` returns false exactly when some
declared limit is violated, where a limit or vehicle attribute whose
declared value is 0.0 counts as undeclared (Python truthiness); limits
with no declared value impose no constraint and undeclared vehicle
attributes never trigger a violation. -/
theorem c6_allows_amended (r : RoadRestrictions) (v : VehicleProfile) :
    r.allows_vehicle v = allowsSpecTruthy r v := by
  simp only [RoadRestrictions.allows_vehicle, allowsSpecTruthy]
  exact if_chain_eq_not_or _ _ _ _ _ _ _ _

/-- C1 (counterexample): `RouteOptimizationEngine._calculate_improvements`
does not floor at zero: with a baseline 1 km shorter than the optimized
route, `distance_saved_km` is -1, a negative delta field. -/
theorem c1_engine_negative_delta :
    (engine_calculate_improvements (some ⟨1, 1, 1, 1⟩) ⟨2, 2, 2, 2⟩).distance_saved_km
      = -1 ∧
    ¬ 0 ≤ (engine_calculate_improvements (some ⟨1, 1, 1, 1⟩) ⟨2, 2, 2, 2⟩).distance_saved_km := by
  norm_num [engine_calculate_improvements, round2, roundHalfEven]

/-- C1 (amended): in `EnhancedOptimizer.optimize` each of the four delta
fields equals `max(0, baseline - primary)` and is ≥ 0; in
`RouteOptimizationEngine._calculate_improvements` the fields equal
baseline minus primary rounded (2 decimals, 1 for time) with no floor,
and may therefore be negative. -/
theorem c1_improvements_amended :
    (∀ b o : RouteMetrics,
      0 ≤ (enhanced_improvements b o).distance_saved_km ∧
      0 ≤ (enhanced_improvements b o).time_saved_minutes ∧
      0 ≤ (enhanced_improvements b o).cost_saved_usd ∧
      0 ≤ (enhanced_improvements b o).emissions_saved_kg ∧
      enhanced_improvements b o =
        ⟨max 0 (b.distance_km - o.distance_km), max 0 (b.time_minutes - o.time_minutes),
         max 0 (b.cost_usd - o.cost_usd), max 0 (b.emissions_kg - o.emissions_kg)⟩) ∧
    (∀ b o : RouteMetrics,
      engine_calculate_improvements (some b) o =
        ⟨round2 (b.distance_km - o.distance_km), round1 (b.time_minutes - o.time_minutes),
         round2 (b.cost_usd - o.cost_usd), round2 (b.emissions_kg - o.emissions_kg)⟩) := by
  constructor
  · exact fun b o =>
      ⟨le_max_left _ _, le_max_left _ _, le_max_left _ _, le_max_left _ _, rfl⟩
  · exact fun b o => rfl

/-- C8: `calculate_edge_weight` is the criterion-blended sum of the
distance, time, fuel-cost and emissions components scaled by the
road-type multiplier; the multiplier maps motorway to 1.0 and service
to 1.6, sends every road type outside the seven-entry table to 1.3, and
always lies in [1.0, 1.6].  The speed limit is assumed positive (the
source would raise `ZeroDivisionError` otherwise). -/
theorem c8_edge_weight_formula (L S : ℚ) (rt : String) (dw tw cw ew : ℚ)
    (_hS : 0 < S) :
    calculate_edge_weight L S rt dw tw cw ew =
      ((L / 1000) * dw + (((L / 1000) / S) * 60) * tw
        + ((L / 1000) * (15/100)) * cw + ((L / 1000) * (12/100)) * ew)
        * road_type_penalty rt ∧
    road_type_penalty "motorway" = 1 ∧
    road_type_penalty "service" = 16/10 ∧
    (pyLower rt ∉ ["motorway", "trunk", "primary", "secondary", "tertiary",
        "residential", "service"] → road_type_penalty rt = 13/10) ∧
    1 ≤ road_type_penalty rt ∧ road_type_penalty rt ≤ 16/10 := by
  refine ⟨rfl, road_type_penalty_motorway, road_type_penalty_service, ?_, ?_, ?_⟩
  · intro h
    unfold road_type_penalty
    split_ifs with h1 h2 h3 h4 h5 h6 h7 <;> simp_all
  · unfold road_type_penalty
    split_ifs <;> norm_num
  · unfold road_type_penalty
    split_ifs <;> norm_num

/-- C8 (witness): the theorem at length 1000 m, speed 50 km/h, the
unknown road type "gravelpath" and the balanced weight mix. -/
theorem c8_edge_weight_formula_witness :
    (0:ℚ) < 50 ∧
    (calculate_edge_weight 1000 50 "gravelpath" (3/10) (4/10) (2/10) (1/10) =
      (((1000:ℚ) / 1000) * (3/10) + ((((1000:ℚ) / 1000) / 50) * 60) * (4/10)
        + (((1000:ℚ) / 1000) * (15/100)) * (2/10) + (((1000:ℚ) / 1000) * (12/100)) * (1/10))
        * road_type_penalty "gravelpath" ∧
    road_type_penalty "motorway" = 1 ∧
    road_type_penalty "service" = 16/10 ∧
    (pyLower "gravelpath" ∉ ["motorway", "trunk", "primary", "secondary", "tertiary",
        "residential", "service"] → road_type_penalty "gravelpath" = 13/10) ∧
    1 ≤ road_type_penalty "gravelpath" ∧ road_type_penalty "gravelpath" ≤ 16/10) :=
  ⟨by norm_num,
   c8_edge_weight_formula 1000 50 "gravelpath" (3/10) (4/10) (2/10) (1/10) (by norm_num)⟩

/-- `addWeightEdge` reads only the length, speed-limit and road-type
attributes, so it erases any weight previously written by
`prioritizeEdge`. -/
theorem addWeightEdge_prioritizeEdge (dw tw cw ew : ℚ) (d : EdgeData) :
    addWeightEdge dw tw cw ew (prioritizeEdge d) = addWeightEdge dw tw cw ew d := by
  unfold prioritizeEdge addWeightEdge
  split_ifs <;> rfl

/-- Assigning optimization weights after truck prioritization overwrites
every prioritized weight: the composition equals weight assignment
alone. -/
theorem add_weights_after_prioritize (g : Graph) (v : VehicleProfile)
    (dw tw cw ew : ℚ) :
    add_weights_to_graph (prioritize_truck_routes g v) dw tw cw ew =
      add_weights_to_graph g dw tw cw ew := by
  unfold prioritize_truck_routes
  cases hb : v.requires_truck_route with
  | false => simp
  | true =>
    simp only [Bool.not_true, Bool.false_eq_true, if_false, add_weights_to_graph,
      List.map_map]
    have hfun : ((fun e : ℕ × ℕ × EdgeData => (e.1, e.2.1, addWeightEdge dw tw cw ew e.2.2))
        ∘ (fun e : ℕ × ℕ × EdgeData => (e.1, e.2.1, prioritizeEdge e.2.2)))
        = (fun e : ℕ × ℕ × EdgeData => (e.1, e.2.1, addWeightEdge dw tw cw ew e.2.2)) := by
      funext e
      simp [Function.comp, addWeightEdge_prioritizeEdge]
    rw [hfun]

/-- C3: in `RouteOptimizationEngine.optimize` the heavy-vehicle
prioritization step runs *before* `add_weights_to_graph`, which then
overwrites every edge weight, so the weights used by the search never
reflect the 0.9/1.3 multipliers: the pipeline equals filtering followed
by weight assignment alone.  At the failing input (single motorway edge,
truck profile, criterion "time") the final weight is the unprioritized
base weight 1.16, not 0.9 * 1.16 as the claim requires. -/
theorem c3_prioritization_overwritten :
    (∀ (g : Graph) (v : VehicleProfile) (criteria : String),
      engine_prepare_graph g v criteria =
        add_weights_to_graph (filter_graph_by_vehicle g v)
          (criterion_weights criteria).1 (criterion_weights criteria).2.1
          (criterion_weights criteria).2.2.1 (criterion_weights criteria).2.2.2) ∧
    (engine_prepare_graph gMotorway truckV "time").edges.map (fun e => e.2.2.weight)
      = [some (29/25)] ∧
    calculate_edge_weight 1000 50 "motorway" (2/10) (8/10) 0 0 = 29/25 ∧
    (29 : ℚ)/25 ≠ (9/10) * (29/25) := by
  have hall : ∀ (g : Graph) (v : VehicleProfile) (criteria : String),
      engine_prepare_graph g v criteria =
        add_weights_to_graph (filter_graph_by_vehicle g v)
          (criterion_weights criteria).1 (criterion_weights criteria).2.1
          (criterion_weights criteria).2.2.1 (criterion_weights criteria).2.2.2 := by
    intro g v criteria
    simp only [engine_prepare_graph]
    cases hb : v.requires_truck_route
    · simp
    · simp [add_weights_after_prioritize]
  have hcw : calculate_edge_weight 1000 50 "motorway" (2/10) (8/10) 0 0 = 29/25 := by
    rw [calculate_edge_weight, road_type_penalty_motorway]
    norm_num
  refine ⟨hall, ?_, hcw, by norm_num⟩
  rw [hall]
  simp [filter_graph_by_vehicle, shouldRemoveEdge, roadTypeLower, parse_restrictions,
    RoadRestrictions.allows_vehicle, limitExceeded, optTruthy, optGt,
    VehicleProfile.requires_truck_route, road_type_access, isIsolated,
    add_weights_to_graph, addWeightEdge, criterion_weights, gMotorway, truckV,
    pyLower_motorway, List.filter, hcw]

/-- C4 (counterexample): `prioritize_truck_routes` and
`add_weights_to_graph` mutate their input network: after the call on a
one-edge graph whose edge weight is 1, the argument's edge weight has
become 1.3 (resp. the computed base weight 1.0686), so the input is not
left unchanged as the claim requires. -/
theorem c4_mutation_counterexample :
    gOneEdge.edges.map (fun e => e.2.2.weight) = [some 1] ∧
    ((prioritize_truck_routes_call gOneEdge truckV).2).edges.map (fun e => e.2.2.weight)
      = [some (13/10)] ∧
    ((add_weights_to_graph_call gOneEdge (3/10) (4/10) (2/10) (1/10)).2).edges.map
      (fun e => e.2.2.weight) = [some (5343/5000)] ∧
    (prioritize_truck_routes_call gOneEdge truckV).2 ≠ gOneEdge ∧
    (add_weights_to_graph_call gOneEdge (3/10) (4/10) (2/10) (1/10)).2 ≠ gOneEdge := by
  have h0 : gOneEdge.edges.map (fun e => e.2.2.weight) = [some 1] := by
    simp [gOneEdge, edgeW]
  have h1 : ((prioritize_truck_routes_call gOneEdge truckV).2).edges.map
      (fun e => e.2.2.weight) = [some (13/10)] := by
    simp [prioritize_truck_routes_call, prioritize_truck_routes, prioritizeEdge,
      roadTypeLower, VehicleProfile.requires_truck_route, optGt, truckV, gOneEdge,
      edgeW, pyLower_unknown]
  have h2 : ((add_weights_to_graph_call gOneEdge (3/10) (4/10) (2/10) (1/10)).2).edges.map
      (fun e => e.2.2.weight) = [some (5343/5000)] := by
    simp [add_weights_to_graph_call, add_weights_to_graph, addWeightEdge,
      gOneEdge, edgeW]
    rw [calculate_edge_weight, road_type_penalty_unknown]
    norm_num
  refine ⟨h0, h1, h2, ?_, ?_⟩
  · intro h
    rw [h, h0] at h1
    simp only [List.cons.injEq, Option.some.injEq] at h1
    exact absurd h1.1 (by norm_num)
  · intro h
    rw [h, h0] at h2
    simp only [List.cons.injEq, Option.some.injEq] at h2
    exact absurd h2.1 (by norm_num)

/-- C4 (amended): `filter_graph_by_vehicle` works on a copy and leaves
its input unchanged, returning a new network; `prioritize_truck_routes`
and `add_weights_to_graph` instead mutate the edge weights of their
input in place and return the input object itself (argument and result
coincide); all three preserve the node list, the edge endpoints, and
every non-weight edge attribute of the graph they return. -/
theorem c4_mutation_amended (g : Graph) (v : VehicleProfile) (dw tw cw ew : ℚ) :
    (filter_graph_by_vehicle_call g v).2 = g ∧
    (prioritize_truck_routes_call g v).2 = (prioritize_truck_routes_call g v).1 ∧
    (add_weights_to_graph_call g dw tw cw ew).2
      = (add_weights_to_graph_call g dw tw cw ew).1 ∧
    (prioritize_truck_routes g v).nodes = g.nodes ∧
    (add_weights_to_graph g dw tw cw ew).nodes = g.nodes ∧
    (prioritize_truck_routes g v).edges.map (fun e => (e.1, e.2.1, eraseWeight e.2.2))
      = g.edges.map (fun e => (e.1, e.2.1, eraseWeight e.2.2)) ∧
    (add_weights_to_graph g dw tw cw ew).edges.map
        (fun e => (e.1, e.2.1, eraseWeight e.2.2))
      = g.edges.map (fun e => (e.1, e.2.1, eraseWeight e.2.2)) := by
  have hpe : ∀ d : EdgeData, eraseWeight (prioritizeEdge d) = eraseWeight d := by
    intro d
    unfold prioritizeEdge eraseWeight
    split_ifs <;> rfl
  have hae : ∀ d : EdgeData, eraseWeight (addWeightEdge dw tw cw ew d) = eraseWeight d :=
    fun d => rfl
  refine ⟨rfl, rfl, rfl, ?_, rfl, ?_, ?_⟩
  · unfold prioritize_truck_routes
    split_ifs <;> rfl
  · unfold prioritize_truck_routes
    split_ifs with h
    · rfl
    · simp [List.map_map, Function.comp, hpe]
  · simp [add_weights_to_graph, List.map_map, Function.comp, hae]

/-- Evaluation of the library search on the line graph. -/
theorem shortest_path_gLine : shortest_path gLine wtWeight 0 2 = some [0, 1, 2] := by
  norm_num [shortest_path, simplePathsAux, selectMinPath, pathCost, get_edge_data,
    gLine, dLine, wtWeight, List.filterMap, List.flatMap, List.find?, List.foldl,
    List.zip, List.zipWith]

/-- C2: `AStarOptimizer.optimize_route` never times out: its stored
`max_execution_time` is never read, so for *every* elapsed wall-clock
time — 9 seconds included, past the 8-second deadline — the search on
the line graph still returns the complete path 0→1→2, with the elapsed
time merely copied into `processing_time_ms`.  The result type
`Option RouteResult` has no timeout-distinct failure: `none` is
returned only on no-path. -/
theorem c2_no_timeout (elapsed_ms : ℤ) :
    (optimize_route gLine 0 2 wtWeight elapsed_ms).map RouteResult.path
      = some [0, 1, 2] ∧
    (optimize_route gLine 0 2 wtWeight elapsed_ms).isSome = true ∧
    (optimize_route gLine 0 2 wtWeight elapsed_ms).map RouteResult.processing_time_ms
      = some elapsed_ms := by
  refine ⟨?_, ?_, ?_⟩ <;> simp [optimize_route, shortest_path_gLine]

/-- Evaluation of the alternatives search on `gAlt`: the primary path
0→1→2 is followed by the detour 0→3→2 kept twice (once after removing
edge (0,1), once again after removing edge (1,2), when the re-solved
path still differs from the primary but equals the previous
alternative). -/
theorem find_alternative_routes_gAlt :
    find_alternative_routes gAlt 0 2 2 = [pAlt, aAlt, aAlt] := by
  norm_num [find_alternative_routes, find_alt_loop, optimize_route, remove_edge,
    shortest_path, simplePathsAux, selectMinPath, pathCost, get_edge_data,
    calculate_metrics, round2, round1, roundHalfEven, gAlt, edgeW, wtWeight,
    pAlt, aAlt, List.filterMap, List.flatMap, List.find?, List.foldl, List.zip,
    List.zipWith, List.filter]

/-- C5 (counterexample): on `gAlt` the alternatives list contains the
same node sequence 0→3→2 twice, because each re-solved route is
compared only against the primary path, not against previously found
alternatives — so "no two routes share the same node sequence" fails. -/
theorem c5_duplicate_alternatives :
    (find_alternative_routes gAlt 0 2 2).map RouteResult.path
      = [[0, 1, 2], [0, 3, 2], [0, 3, 2]] ∧
    ¬ List.Pairwise (fun a b : RouteResult => a.path ≠ b.path)
      (find_alternative_routes gAlt 0 2 2) := by
  constructor
  · rw [find_alternative_routes_gAlt]
    simp [pAlt, aAlt]
  · intro hpw
    rw [find_alternative_routes_gAlt] at hpw
    have := List.Pairwise.map (f := RouteResult.path)
      (fun a b (h : a.path ≠ b.path) => h) hpw
    simp [pAlt, aAlt] at this

/-- Every route produced by the alternatives loop has a node sequence
different from the primary path it diversifies against. -/
theorem find_alt_loop_path_ne (origin dest : ℕ) (pp : List ℕ) :
    ∀ (n i : ℕ) (gc : Graph) (r : RouteResult),
      r ∈ find_alt_loop origin dest pp i n gc → r.path ≠ pp := by
  intro n
  induction n with
  | zero =>
    intro i gc r hr
    simp [find_alt_loop] at hr
  | succ n ih =>
    intro i gc r hr
    simp only [find_alt_loop] at hr
    split at hr
    · simp at hr
    · split at hr
      · split at hr
        · rcases List.mem_cons.mp hr with h | h
          · subst h
            assumption
          · exact ih _ _ _ h
        · exact ih _ _ _ hr
      · exact ih _ _ _ hr

/-- C5 (amended): `find_alternative_routes` computes the primary path,
then for up to `n` iterations removes one edge of the primary path's
early segment and re-solves on the reduced graph, keeping every result
whose node sequence differs from the *primary* path only — so each
route in the returned tail differs from the primary, but two
alternatives may share the same node sequence. -/
theorem c5_alternatives_amended (g : Graph) (origin dest n : ℕ) (p : RouteResult)
    (rest : List RouteResult)
    (h : find_alternative_routes g origin dest n = p :: rest)
    (r : RouteResult) (hr : r ∈ rest) : r.path ≠ p.path := by
  unfold find_alternative_routes at h
  cases hopt : optimize_route g origin dest wtWeight 0 with
  | none =>
    rw [hopt] at h
    simp at h
  | some primary =>
    rw [hopt] at h
    simp only [List.cons.injEq] at h
    obtain ⟨rfl, hrest⟩ := h
    rw [← hrest] at hr
    split at hr
    · exact find_alt_loop_path_ne origin dest _ n 0 g r hr
    · simp at hr

/-- C5 (witness): the amended theorem applied on `gAlt`, where the
returned list is the primary 0→1→2 followed by the duplicate
alternatives 0→3→2. -/
theorem c5_alternatives_amended_witness :
    find_alternative_routes gAlt 0 2 2 = pAlt :: [aAlt, aAlt] ∧
    aAlt ∈ [aAlt, aAlt] ∧ aAlt.path ≠ pAlt.path :=
  ⟨find_alternative_routes_gAlt, by simp,
   c5_alternatives_amended gAlt 0 2 2 pAlt [aAlt, aAlt] find_alternative_routes_gAlt
     aAlt (by simp)⟩

/-- C7: every edge surviving `filter_graph_by_vehicle` has restrictions
allowing the vehicle, a road type in the vehicle's allowed set, and —
when the vehicle avoids highways — a road type that is neither motorway
nor trunk; and every node of the returned network has at least one
incident edge (no isolated nodes). -/
theorem c7_filter_soundness (g : Graph) (v : VehicleProfile) :
    (∀ (u w : ℕ) (d : EdgeData), (u, w, d) ∈ (filter_graph_by_vehicle g v).edges →
      (parse_restrictions d.tags d.toll).allows_vehicle v = true ∧
      (road_type_access v.vehicle_type).contains (roadTypeLower d) = true ∧
      (v.avoid_highways = true →
        roadTypeLower d ≠ "motorway" ∧ roadTypeLower d ≠ "trunk")) ∧
    (∀ nd : ℕ × NodeData, nd ∈ (filter_graph_by_vehicle g v).nodes →
      ∃ e ∈ (filter_graph_by_vehicle g v).edges, e.1 = nd.1 ∨ e.2.1 = nd.1) := by
  constructor
  · intro u w d hmem
    have hp := (List.mem_filter.mp hmem).2
    simp only [Bool.not_eq_eq_eq_not, Bool.not_true, shouldRemoveEdge,
      Bool.or_eq_false_iff, Bool.not_eq_false', Bool.and_eq_false_imp,
      Bool.or_eq_true, decide_eq_true_eq, Bool.not_eq_false] at hp
    obtain ⟨⟨hcont, hhw⟩, hallow⟩ := hp
    exact ⟨hallow, hcont, fun hav => by
      have h2 := hhw hav
      simp only [decide_eq_false_iff_not] at h2
      exact h2⟩
  · intro nd hmem
    have hp := (List.mem_filter.mp hmem).2
    simp only [Bool.not_eq_eq_eq_not, Bool.not_true, isIsolated, List.all_eq_false] at hp
    obtain ⟨e, he, hee⟩ := hp
    refine ⟨e, he, ?_⟩
    simp only [Bool.and_eq_true, bne_iff_ne, ne_eq, not_and, not_not] at hee
    by_cases h1 : e.1 = nd.1
    · exact Or.inl h1
    · exact Or.inr (hee h1)

/-- Filtering the primary-road line graph for a car keeps everything. -/
theorem filter_gLine : filter_graph_by_vehicle gLine carV = gLine := by
  simp [filter_graph_by_vehicle, shouldRemoveEdge, roadTypeLower, parse_restrictions,
    RoadRestrictions.allows_vehicle, limitExceeded, optTruthy, optGt,
    VehicleProfile.requires_truck_route, road_type_access, isIsolated, gLine, dLine,
    carV, pyLower_primary, List.filter]

/-- C7 (witness): the soundness theorem applied to the line graph and a
car profile, on the surviving edge (0,1) and node 0. -/
theorem c7_filter_soundness_witness :
    ((0, 1, dLine) ∈ (filter_graph_by_vehicle gLine carV).edges ∧
      (parse_restrictions dLine.tags dLine.toll).allows_vehicle carV = true ∧
      (road_type_access carV.vehicle_type).contains (roadTypeLower dLine) = true ∧
      (carV.avoid_highways = true →
        roadTypeLower dLine ≠ "motorway" ∧ roadTypeLower dLine ≠ "trunk")) ∧
    ((0, ({} : NodeData)) ∈ (filter_graph_by_vehicle gLine carV).nodes ∧
      ∃ e ∈ (filter_graph_by_vehicle gLine carV).edges, e.1 = 0 ∨ e.2.1 = 0) := by
  have hmem1 : ((0 : ℕ), (1 : ℕ), dLine) ∈ (filter_graph_by_vehicle gLine carV).edges := by
    rw [filter_gLine]
    simp [gLine]
  have hmem2 : ((0 : ℕ), ({} : NodeData)) ∈ (filter_graph_by_vehicle gLine carV).nodes := by
    rw [filter_gLine]
    simp [gLine]
  exact ⟨⟨hmem1, (c7_filter_soundness gLine carV).1 0 1 dLine hmem1⟩,
         ⟨hmem2, (c7_filter_soundness gLine carV).2 (0, {}) hmem2⟩⟩

/-- The minimum of a nonempty timestamp list is one of its elements. -/
theorem listMin_mem : ∀ {l : List ℚ} {m : ℚ}, listMin l = some m → m ∈ l := by
  intro l
  induction l with
  | nil => intro m h; simp [listMin] at h
  | cons t ts ih =>
    intro m h
    simp only [listMin] at h
    cases hm : listMin ts with
    | none =>
      rw [hm] at h
      simp only [Option.some.injEq] at h
      exact h ▸ List.mem_cons_self t ts
    | some mm =>
      rw [hm] at h
      simp only [Option.some.injEq] at h
      rcases min_choice t mm with hc | hc
      · rw [hc] at h
        exact h ▸ List.mem_cons_self t ts
      · rw [hc] at h
        exact List.mem_cons_of_mem t (h ▸ ih hm)

/-- C9 (counterexample): ten requests in the trailing minute at
`now = 100`, the oldest at 40.5: the next request is denied, but
`retry_after` is `int(40.5 + 60 - 100) = 0`, not strictly positive and
not the exact 0.5-second wait until the oldest request expires. -/
theorem c9_retry_after_zero :
    (check_sliding_window recsTen 100 10).allowed = false ∧
    (check_sliding_window recsTen 100 10).retry_after = some 0 := by
  have hfilter : recsTen.filter (fun t => (100 : ℚ) - 60 < t) = recsTen := by
    norm_num [recsTen, List.filter]
  constructor
  · simp only [check_sliding_window, hfilter]
    norm_num [recsTen]
  · simp only [check_sliding_window, hfilter]
    norm_num [recsTen, listMin, pyInt, min_def]

/-- C9 (amended): the sliding window allows a request exactly when the
count of the key's requests in the trailing 60 seconds is strictly
below the limit (so in a fresh window the 10th request against a limit
of 10 is allowed and the 11th is denied); on denial with a nonempty
window whose oldest timestamp is nonzero, `retry_after` equals the time
until the oldest request expires *truncated to a whole second*
(`int(oldest + 60 - now)`), which is ≥ 0 but — unlike the claim's
strict positivity — may be 0. -/
theorem c9_sliding_window_amended :
    (∀ (records : List ℚ) (now : ℚ) (limit : ℕ),
      (check_sliding_window records now limit).allowed = true ↔
        (records.filter (fun t => now - 60 < t)).length < limit) ∧
    (∀ (records : List ℚ) (now : ℚ) (limit : ℕ) (oldest : ℚ),
      (check_sliding_window records now limit).allowed = false →
      listMin (records.filter (fun t => now - 60 < t)) = some oldest →
      oldest ≠ 0 →
      (check_sliding_window records now limit).retry_after
          = some (pyInt (oldest + 60 - now)) ∧
      0 ≤ pyInt (oldest + 60 - now)) := by
  constructor
  · intro records now limit
    simp [check_sliding_window]
  · intro records now limit oldest hden hmin hnz
    have hmem := listMin_mem hmin
    have hlt : now - 60 < oldest := by
      have := (List.mem_filter.mp hmem).2
      simpa using this
    have hpos : (0 : ℚ) < oldest + 60 - now := by linarith
    have hfloor : 0 ≤ pyInt (oldest + 60 - now) := by
      rw [pyInt, if_pos hpos.le]
      exact Int.le_floor.mpr (by push_cast; linarith)
    refine ⟨?_, hfloor⟩
    have hden2 : decide ((records.filter (fun t => now - 60 < t)).length < limit)
        = false := by
      simpa [check_sliding_window] using hden
    simp [check_sliding_window, hden2, hmin, hnz]

/-- C9 (witness): the amended theorem at the concrete denied request:
`retry_after = int(0.5) = 0 ≥ 0`, and the allowed/count equivalence at
the same input. -/
theorem c9_sliding_window_amended_witness :
    ((check_sliding_window recsTen 100 10).allowed = true ↔
      (recsTen.filter (fun t => (100 : ℚ) - 60 < t)).length < 10) ∧
    ((check_sliding_window recsTen 100 10).retry_after
        = some (pyInt (81/2 + 60 - 100)) ∧
      0 ≤ pyInt ((81 : ℚ)/2 + 60 - 100)) :=
  ⟨c9_sliding_window_amended.1 recsTen 100 10,
   c9_sliding_window_amended.2 recsTen 100 10 (81/2)
     (by
       have hfilter : recsTen.filter (fun t => (100 : ℚ) - 60 < t) = recsTen := by
         norm_num [recsTen, List.filter]
       simp only [check_sliding_window, hfilter]
       norm_num [recsTen])
     (by
       have hfilter : recsTen.filter (fun t => (100 : ℚ) - 60 < t) = recsTen := by
         norm_num [recsTen, List.filter]
       rw [hfilter]
       norm_num [recsTen, listMin, min_def])
     (by norm_num)⟩

/-- Eviction only removes entries: whatever survives was already in the
cache. -/
theorem graphEvict_mem {α : Type} (m : ℤ) (nsz : ℕ) :
    ∀ (fuel : ℕ) (s : GraphCacheState α) (x),
      x ∈ (graphEvictIfNeeded m nsz fuel s).entries → x ∈ s.entries := by
  intro fuel
  induction fuel with
  | zero => intro s x hx; exact hx
  | succ n ih =>
    intro s x hx
    simp only [graphEvictIfNeeded] at hx
    split at hx
    · split at hx
      · exact hx
      · next e rest heq =>
        rw [heq]
        exact List.mem_cons_of_mem e (ih _ x hx)
    · exact hx

/-- `find?` skips a prefix with no match. -/
theorem find?_append_none {α : Type} (p : α → Bool) (l1 l2 : List α)
    (h : l1.find? p = none) : (l1 ++ l2).find? p = l2.find? p := by
  induction l1 with
  | nil => rfl
  | cons a t ih =>
    cases hpa : p a with
    | true =>
      rw [List.find?_cons_of_pos _ hpa] at h
      exact absurd h (by simp)
    | false =>
      rw [List.find?_cons_of_neg _ (by simp [hpa])] at h
      simp only [List.cons_append]
      rw [List.find?_cons_of_neg _ (by simp [hpa])]
      exact ih h

/-- `GraphCache.get` on an entry older than the TTL misses and evicts. -/
theorem graphCacheGet_expired {α : Type} (ttl now ts : ℚ) (s : GraphCacheState α)
    (key : String) (v : α) (sz : ℕ)
    (hfind : s.entries.find? (fun e => e.1 = key) = some (key, v, ts, sz))
    (hexp : now - ts > ttl) :
    (graphCacheGet ttl s key now).1 = none ∧
    (graphCacheGet ttl s key now).2.entries.find? (fun e => e.1 = key) = none := by
  have hexpB : graph_is_expired ttl ts now = true := decide_eq_true hexp
  constructor
  · simp [graphCacheGet, hfind, hexpB]
  · simp only [graphCacheGet, hfind, hexpB, if_true]
    apply List.find?_eq_none.mpr
    intro x hx
    have hne := (List.mem_filter.mp hx).2
    simpa using hne

/-- `GraphCache.set` then `get` within the TTL returns the stored
value. -/
theorem graphCacheSet_get {α : Type} (ttl : ℚ) (maxb : ℤ) (s : GraphCacheState α)
    (key : String) (v : α) (sz : ℕ) (tset tget : ℚ)
    (h : tget - tset ≤ ttl) :
    (graphCacheGet ttl (graphCacheSet maxb s key v sz tset) key tget).1 = some v := by
  have hnotexp : graph_is_expired ttl tset tget = false :=
    decide_eq_false (not_lt.mpr h)
  have key_absent : ∀ x ∈ (graphCacheSet maxb s key v sz tset).entries.dropLast ++
      [(key, v, tset, sz)], True := fun _ _ => trivial
  -- the state written by `set`: evicted old entries (none keyed `key`)
  -- followed by the fresh entry
  cases hf : s.entries.find? (fun e => e.1 = key) with
  | none =>
    have habs : ∀ x ∈ s.entries, ¬ (x.1 = key) := by
      intro x hx
      have := List.find?_eq_none.mp hf x hx
      simpa using this
    have habs2 : (graphEvictIfNeeded maxb sz s.entries.length s).entries.find?
        (fun e => e.1 = key) = none := by
      apply List.find?_eq_none.mpr
      intro x hx
      simpa using habs x (graphEvict_mem maxb sz _ s x hx)
    simp only [graphCacheSet, hf]
    rw [graphCacheGet, find?_append_none _ _ _ habs2]
    simp [hnotexp]
  | some e =>
    have habs : ∀ x ∈ s.entries.filter (fun q => q.1 ≠ key), ¬ (x.1 = key) := by
      intro x hx
      have := (List.mem_filter.mp hx).2
      simpa using this
    have habs2 : (graphEvictIfNeeded maxb sz
        (s.entries.filter (fun q => q.1 ≠ key)).length
        { entries := s.entries.filter (fun q => q.1 ≠ key)
          current_size_bytes := s.current_size_bytes - e.2.2.2 }).entries.find?
        (fun e => e.1 = key) = none := by
      apply List.find?_eq_none.mpr
      intro x hx
      simpa using habs x (graphEvict_mem maxb sz _ _ x hx)
    simp only [graphCacheSet, hf]
    rw [graphCacheGet, find?_append_none _ _ _ habs2]
    simp [hnotexp]

/-- `RouteCache.get_route` on an entry older than the TTL misses and
evicts. -/
theorem routeCacheGet_expired {α : Type} (ttl now ts : ℚ) (s : RouteCacheState α)
    (key : RouteKey) (v : α)
    (hfind : s.entries.find? (fun e => e.1 = key) = some (key, v, ts))
    (hexp : now - ts > ttl) :
    (routeCacheGet ttl s key now).1 = none ∧
    (routeCacheGet ttl s key now).2.entries.find? (fun e => e.1 = key) = none := by
  constructor
  · simp [routeCacheGet, hfind, hexp]
  · simp only [routeCacheGet, hfind, if_pos hexp]
    apply List.find?_eq_none.mpr
    intro x hx
    have hne := (List.mem_filter.mp hx).2
    simpa using hne

/-- Replacing the keyed entry in place makes `find?` on that key return
the replacement. -/
theorem find?_map_replace {α : Type} (key : RouteKey) (route : α) (now : ℚ) :
    ∀ l : List (RouteKey × α × ℚ), (l.find? (fun e => e.1 = key)).isSome →
      (l.map (fun e => if e.1 = key then (key, route, now) else e)).find?
        (fun e => e.1 = key) = some (key, route, now) := by
  intro l
  induction l with
  | nil => intro h; simp at h
  | cons a t ih =>
    intro h
    by_cases ha : a.1 = key
    · simp [List.find?_cons, ha]
    · rw [List.find?_cons_of_neg _ (by simpa using ha)] at h
      simp only [List.map_cons, if_neg ha]
      rw [List.find?_cons_of_neg _ (by simpa using ha)]
      exact ih h

/-- `RouteCache.set_route` then `get_route` within the TTL returns the
stored route. -/
theorem routeCacheSet_get {α : Type} (ttl : ℚ) (maxi : ℕ) (s : RouteCacheState α)
    (key : RouteKey) (route : α) (tset tget : ℚ)
    (h : tget - tset ≤ ttl) :
    (routeCacheGet ttl (routeCacheSet maxi s key route tset) key tget).1
      = some route := by
  have hnotexp : ¬ (tget - tset > ttl) := not_lt.mpr h
  by_cases hp : (s.entries.find? (fun e => e.1 = key)).isSome = true
  · -- present: OrderedDict assignment replaces in place (capacity branch
    -- is not taken)
    simp only [routeCacheSet, hp, not_true, and_false, if_false, if_true]
    rw [routeCacheGet, find?_map_replace key route tset s.entries hp]
    simp [hnotexp]
  · -- absent: append at the end (after a possible oldest-entry pop)
    have hf : s.entries.find? (fun e => e.1 = key) = none :=
      Option.not_isSome_iff_eq_none.mp hp
    have habs : ∀ x ∈ s.entries, ¬ (x.1 = key) := by
      intro x hx
      have := List.find?_eq_none.mp hf x hx
      simpa using this
    by_cases hcap : maxi ≤ s.entries.length
    · have habs2 : s.entries.tail.find? (fun e => e.1 = key) = none := by
        apply List.find?_eq_none.mpr
        intro x hx
        simpa using habs x (List.mem_of_mem_tail hx)
      simp only [routeCacheSet, hp, not_false_iff, and_true, if_false, hcap, if_true,
        Bool.false_eq_true]
      rw [routeCacheGet, find?_append_none _ _ _ habs2]
      simp [hnotexp]
    · have habs2 : s.entries.find? (fun e => e.1 = key) = none := by
        apply List.find?_eq_none.mpr
        intro x hx
        simpa using habs x hx
      simp only [routeCacheSet, hp, not_false_iff, and_true, if_false, hcap,
        Bool.false_eq_true]
      rw [routeCacheGet, find?_append_none _ _ _ habs2]
      simp [hnotexp]

/-- C10: for both caches, `get` on an entry whose TTL has elapsed evicts
it and returns a miss, never the stale value; and a value set and read
back within the TTL is returned. -/
theorem c10_cache_ttl :
    (∀ (α : Type) (ttl now ts : ℚ) (s : GraphCacheState α) (key : String)
        (v : α) (sz : ℕ),
      s.entries.find? (fun e => e.1 = key) = some (key, v, ts, sz) →
      now - ts > ttl →
      (graphCacheGet ttl s key now).1 = none ∧
      (graphCacheGet ttl s key now).2.entries.find? (fun e => e.1 = key) = none) ∧
    (∀ (α : Type) (ttl : ℚ) (maxb : ℤ) (s : GraphCacheState α) (key : String)
        (v : α) (sz : ℕ) (tset tget : ℚ),
      tget - tset ≤ ttl →
      (graphCacheGet ttl (graphCacheSet maxb s key v sz tset) key tget).1 = some v) ∧
    (∀ (α : Type) (ttl now ts : ℚ) (s : RouteCacheState α) (key : RouteKey) (v : α),
      s.entries.find? (fun e => e.1 = key) = some (key, v, ts) →
      now - ts > ttl →
      (routeCacheGet ttl s key now).1 = none ∧
      (routeCacheGet ttl s key now).2.entries.find? (fun e => e.1 = key) = none) ∧
    (∀ (α : Type) (ttl : ℚ) (maxi : ℕ) (s : RouteCacheState α) (key : RouteKey)
        (v : α) (tset tget : ℚ),
      tget - tset ≤ ttl →
      (routeCacheGet ttl (routeCacheSet maxi s key v tset) key tget).1 = some v) :=
  ⟨fun _ ttl now ts s key v sz hf he => graphCacheGet_expired ttl now ts s key v sz hf he,
   fun _ ttl maxb s key v sz tset tget h => graphCacheSet_get ttl maxb s key v sz tset tget h,
   fun _ ttl now ts s key v hf he => routeCacheGet_expired ttl now ts s key v hf he,
   fun _ ttl maxi s key v tset tget h => routeCacheSet_get ttl maxi s key v tset tget h⟩

/-- C10 (witness): the cache theorem at concrete states — a graph-cache
entry inserted at t=0 read at t=301 with TTL 300 misses and is evicted;
set at t=0 then read at t=300 hits; likewise for the route cache with
TTL 600 at t=601 and t=600. -/
theorem c10_cache_ttl_witness :
    ((graphCacheGet 300 ⟨[("k", (5 : ℕ), 0, 4)], 4⟩ "k" 301).1 = none ∧
      (graphCacheGet 300 ⟨[("k", (5 : ℕ), 0, 4)], 4⟩ "k" 301).2.entries.find?
        (fun e => e.1 = "k") = none) ∧
    (graphCacheGet 300 (graphCacheSet 104857600 ⟨[], 0⟩ "k" (5 : ℕ) 4 0) "k" 300).1
      = some 5 ∧
    ((routeCacheGet 600 ⟨[((((0, 0), (1, 1), "car", "time") : RouteKey), (7 : ℕ), 0)]⟩
        (((0, 0), (1, 1), "car", "time") : RouteKey) 601).1 = none ∧
      (routeCacheGet 600 ⟨[((((0, 0), (1, 1), "car", "time") : RouteKey), (7 : ℕ), 0)]⟩
        (((0, 0), (1, 1), "car", "time") : RouteKey) 601).2.entries.find?
        (fun e => e.1 = (((0, 0), (1, 1), "car", "time") : RouteKey)) = none) ∧
    (routeCacheGet 600 (routeCacheSet 1000 ⟨[]⟩ (((0, 0), (1, 1), "car", "time") : RouteKey)
        (7 : ℕ) 0) (((0, 0), (1, 1), "car", "time") : RouteKey) 600).1 = some 7 :=
  ⟨c10_cache_ttl.1 ℕ 300 301 0 ⟨[("k", 5, 0, 4)], 4⟩ "k" 5 4
      (by simp [List.find?]) (by norm_num),
   c10_cache_ttl.2.1 ℕ 300 104857600 ⟨[], 0⟩ "k" 5 4 0 300 (by norm_num),
   c10_cache_ttl.2.2.1 ℕ 600 601 0 ⟨[(((0, 0), (1, 1), "car", "time"), 7, 0)]⟩
      ((0, 0), (1, 1), "car", "time") 7 (by simp [List.find?]) (by norm_num),
   c10_cache_ttl.2.2.2 ℕ 600 1000 ⟨[]⟩ ((0, 0), (1, 1), "car", "time") 7 0 600
      (by norm_num)⟩

end SwiftRoute
